import Mathlib

/-!
Shallow embedding of `src/app.py` (SIHINTERN34): a Flask app with two
logic functions, `fetch_internships` (scrapes internship listings) and
`get_job_suggestions` (filters a CSV dataset by skill overlap), plus the
request handler `index`.

Python strings are modelled as Lean `String`, with the string methods
the source uses defined structurally over the character list so they
evaluate by kernel reduction: `str.strip()` is `pyStrip`, `str.lower()`
is `pyLower`, `str.split(sep)` is `pySplitComma` / `pySplitCommaSpace`
for the separators the source uses, and `str.replace(" ", "-")` — a
single-character pattern — is the character map `pyReplaceSpaceDash`
sending a space to a hyphen.

Effects are parameterised: the outcome of `requests.get` plus the
top-level BeautifulSoup parse is an oracle `net : HttpRequest → Except
FetchErr Response` passed to the function; the already-parsed listing
blocks of the page are the `Response.blocks` field.
-/

/-- A row of `job_listings.csv` as consumed by `get_job_suggestions`
(columns `Job_Title`, `Required_Skills`, `Company`, `Location`; the
`row.get(col, "N/A")` defaulting happens before this point, so the
company and location fields here are already strings). -/
structure Row where
  job_title : String
  required_skills : String
  company : String
  location : String
deriving DecidableEq, Repr

/-- A job-suggestion dict appended by `get_job_suggestions`
(`app.py` lines 61-66). -/
structure Suggestion where
  title : String
  company : String
  location : String
  skills : String
deriving DecidableEq, Repr

/-- Python `str.lower()`: lower-case each character (the source only
ever feeds it basic-latin text, where `Char.toLower` agrees). -/
def pyLower (s : String) : String :=
  String.mk (s.data.map Char.toLower)

/-- Python `str.strip()`: drop whitespace from both ends. -/
def pyStrip (s : String) : String :=
  String.mk (((s.data.dropWhile Char.isWhitespace).reverse.dropWhile
    Char.isWhitespace).reverse)

/-- Python `str.split(sep)` for a one-character separator: cut at every
occurrence of the separator (`"".split(sep)` is `[""]`). -/
def pySplitChar (sep : Char) : List Char → List (List Char)
  | [] => [[]]
  | c :: cs =>
    if c = sep then [] :: pySplitChar sep cs
    else
      match pySplitChar sep cs with
      | [] => [[c]]
      | h :: t => (c :: h) :: t

/-- Python `str.split(sep)` for a two-character separator: cut at each
leftmost occurrence and continue after it. -/
def pySplit2 (a b : Char) : List Char → List (List Char)
  | [] => [[]]
  | [c] => [[c]]
  | c1 :: c2 :: rest =>
    if c1 = a ∧ c2 = b then [] :: pySplit2 a b rest
    else
      match pySplit2 a b (c2 :: rest) with
      | [] => [[c1]]
      | h :: t => (c1 :: h) :: t

/-- Python `row["Required_Skills"].split(", ")` as a list of strings. -/
def pySplitCommaSpace (s : String) : List String :=
  (pySplit2 ',' ' ' s.data).map String.mk

/-- Python `skills_input.split(",")` as a list of strings. -/
def pySplitComma (s : String) : List String :=
  (pySplitChar ',' s.data).map String.mk

/-- Python `skill.strip().lower()` — the normalisation applied to each user
skill and each required-skill token (`app.py` lines 54-55). -/
def normSkill (s : String) : String := pyLower (pyStrip s)

/-- The comprehension `[skill.strip().lower() for skill in row["Required_Skills"].split(", ")]`
(`app.py` line 54). -/
def reqTokens (row : Row) : List String :=
  (pySplitCommaSpace row.required_skills).map normSkill

/-- The comprehension `[skill.strip().lower() for skill in skills]` (`app.py` line 55). -/
def userTokens (skills : List String) : List String :=
  skills.map normSkill

/-- The test `any(user_skill in required_skills for user_skill in user_skills)`
(`app.py` line 58). -/
def rowMatches (skills : List String) (row : Row) : Bool :=
  (userTokens skills).any (fun u => (reqTokens row).contains u)

/-- The dict literal of `app.py` lines 61-66. -/
def toSuggestion (row : Row) : Suggestion :=
  { title := row.job_title
    company := row.company
    location := row.location
    skills := row.required_skills }

/-- The function `get_job_suggestions(skills, education_level=None, sector_interests=None)`
(`app.py` lines 48-68).  The dataset `rows` stands for the freshly loaded
`load_job_listings()` result.  The loop appends a suggestion for every
matching row in dataset order; `suggestions[:10]` truncates at the end.
`education_level` and `sector_interests` are accepted and never read. -/
def get_job_suggestions (skills : List String) (education_level : Option String)
    (sector_interests : List String) (rows : List Row) : List Suggestion :=
  (((rows.filter (rowMatches skills)).map toSuggestion).take 10)

/-- An `<a>` tag as seen by the fetch loop: it may or may not carry an
`href` attribute (`tag["href"]` raises `KeyError` when absent). -/
structure Anchor where
  href : Option String
deriving DecidableEq, Repr

/-- One `div.internship_meta` listing block, reduced to the three lookups
the loop body performs on it (`app.py` lines 33-36): the text of the
first `h3` (absent when `find("h3")` returns `None`), the text of the
first `a.link_display_like_text`, and the first `a` tag of the block. -/
structure Block where
  h3Text : Option String
  companyLinkText : Option String
  firstAnchor : Option Anchor
deriving DecidableEq, Repr

/-- An internship dict appended by `fetch_internships` (`app.py` line 37). -/
structure Entry where
  title : String
  company : String
  link : String
deriving DecidableEq, Repr

/-- The exception class raised by one iteration of the listing loop.
`find("h3")` returning `None` makes `.get_text` raise `AttributeError`;
`find("a")` returning `None` makes `None["href"]` raise `TypeError`;
a first anchor without an `href` attribute raises `KeyError`. -/
inductive BlockErr where
  | attributeError
  | typeError
  | keyError
deriving DecidableEq, Repr

/-- The body of the `for listing in listings[:10]` loop (`app.py` lines
33-37), up to but not including the `except AttributeError` clause. -/
def parseBlock (b : Block) : Except BlockErr Entry :=
  match b.h3Text with
  | none => .error .attributeError
  | some title =>
    let company := b.companyLinkText.getD "N/A"
    match b.firstAnchor with
    | none => .error .typeError
    | some a =>
      match a.href with
      | none => .error .keyError
      | some h =>
        .ok { title := title, company := company
              link := "https://internshala.com" ++ h }

/-- The listing loop with its `except AttributeError: continue` clause
(`app.py` lines 31-40): an `AttributeError` skips the block, any other
exception propagates out of the loop. -/
def processBlocks : List Block → Except BlockErr (List Entry)
  | [] => .ok []
  | b :: bs =>
    match parseBlock b with
    | .ok e =>
      match processBlocks bs with
      | .ok es => .ok (e :: es)
      | .error err => .error err
    | .error err =>
      if err = .attributeError then processBlocks bs else .error err

/-- The failure of `requests.get` (network error) or of the top-level
response handling — everything the outer `except Exception` catches that
is not raised inside the listing loop. -/
inductive FetchErr where
  | networkError
  | parseFailure
deriving DecidableEq, Repr

/-- The HTTP request issued by `fetch_internships`: `requests.get(url)`
is called with no `timeout` keyword argument, hence `timeout := none`. -/
structure HttpRequest where
  url : String
  timeout : Option Nat
deriving DecidableEq, Repr

/-- The HTTP response: its status code and the `div.internship_meta`
blocks that `soup.find_all` extracts from its body. -/
structure Response where
  status : Nat
  blocks : List Block
deriving DecidableEq, Repr

/-- Python `primary_skill.replace(" ", "-")` and `location.replace(" ", "-")`:
Python `str.replace` with a single-character pattern substitutes each
occurrence, i.e. maps the characters. -/
def pyReplaceSpaceDash (s : String) : String :=
  String.mk (s.data.map (fun c => if c = ' ' then '-' else c))

/-- The URL built by `app.py` lines 18-23: the first skill (fallback
`"internship"`), spaces replaced by hyphens then lower-cased, as a
`keywords-` segment; a `location-` segment appended when `location` is
truthy (not `None`, not `""`) and `location.lower() != "any"`. -/
def fetchUrl (skills : List String) (location : Option String) : String :=
  let primary_skill := match skills with
    | [] => "internship"
    | s :: _ => s
  let query := pyLower (pyReplaceSpaceDash primary_skill)
  let url := "https://internshala.com/internships/keywords-" ++ query
  match location with
  | none => url
  | some loc =>
    if loc ≠ "" ∧ pyLower loc ≠ "any" then
      url ++ "/location-" ++ pyLower (pyReplaceSpaceDash loc)
    else url

/-- The request object of `requests.get(url)` (`app.py` line 26): the
constructed URL, and no explicit timeout (the `timeout` keyword is not
passed). -/
def fetchRequest (skills : List String) (location : Option String) : HttpRequest :=
  { url := fetchUrl skills location, timeout := none }

/-- The function `fetch_internships(skills, location=None)` (`app.py` lines 15-46).
`net` is the environment: what `requests.get` plus the top-level parse
yield for the issued request.  A `FetchErr`, or any non-`AttributeError`
escaping the listing loop, is caught by a surrounding handler that
returns `[]`; otherwise the loop's entries are returned. -/
def fetch_internships (skills : List String) (location : Option String)
    (net : HttpRequest → Except FetchErr Response) : List Entry :=
  match net (fetchRequest skills location) with
  | .error _ => []
  | .ok resp =>
    match processBlocks (resp.blocks.take 10) with
    | .ok es => es
    | .error _ => []

/-- The parsed form of a POST submission: `request.form.get` returns
`None` for an absent field (hence `Option String`), and
`request.form.getlist("sectors")` returns `[]` for an absent field. -/
structure Form where
  education : Option String
  location : Option String
  skills : Option String
  sectors : List String
deriving DecidableEq, Repr

/-- An uncaught Python exception escaping the request handler. -/
inductive PyError where
  | attributeError
deriving DecidableEq, Repr

/-- What the handler passes to `render_template_string`, plus a flag
recording whether `fetch_internships` (and hence the outbound network
call) was invoked at all. -/
structure Render where
  internships : List Entry
  job_suggestions : List Suggestion
  fetchAttempted : Bool
deriving Repr

/-- The comprehension `[skill.strip() for skill in skills_input.split(",") if skill.strip()]`
(`app.py` line 316). -/
def parseSkills (s : String) : List String :=
  ((pySplitComma s).map pyStrip).filter (fun t => t ≠ "")

/-- The POST branch of `index` (`app.py` lines 308-325).  When the
`skills` field is absent, `request.form.get("skills")` is `None` and
`None.split(",")` raises an uncaught `AttributeError` (a framework 500);
otherwise: parse skills, call `fetch_internships` only when the parsed
list is non-empty (network untouched otherwise), and always call
`get_job_suggestions`. -/
def handlePost (form : Form) (rows : List Row)
    (net : HttpRequest → Except FetchErr Response) : Except PyError Render :=
  match form.skills with
  | none => .error .attributeError
  | some skills_input =>
    let skills := parseSkills skills_input
    let internships :=
      if skills.isEmpty then [] else fetch_internships skills form.location net
    let job_suggestions := get_job_suggestions skills form.education form.sectors rows
    .ok { internships := internships
          job_suggestions := job_suggestions
          fetchAttempted := !skills.isEmpty }

/-- The spec's slug: "lower-case it and replace spaces with hyphens"
(spec §4.2), i.e. lower-casing first.  The code lower-cases after the
replacement; the two orders coincide (`pyLower_pyReplaceSpaceDash`). -/
def specSlug (s : String) : String := pyReplaceSpaceDash (pyLower s)

/-- The spec's description of the search URL (§4.2), rendered as a
definition to compare against `fetchUrl`: a `keywords-` segment from the
first skill (fallback `"internship"`), then a `location-` segment exactly
when the location is present, non-empty and not `"any"` ignoring case. -/
def specUrl (skills : List String) (location : Option String) : String :=
  "https://internshala.com/internships/keywords-" ++ specSlug (skills.headD "internship")
    ++ match location with
       | none => ""
       | some loc =>
         if loc ≠ "" ∧ pyLower loc ≠ "any" then "/location-" ++ specSlug loc else ""

/-- The listing blocks of the page that `fetch_internships` obtains for
its request, `[]` when the request fails. -/
def pageBlocks (skills : List String) (location : Option String)
    (net : HttpRequest → Except FetchErr Response) : List Block :=
  match net (fetchRequest skills location) with
  | .error _ => []
  | .ok resp => resp.blocks

/-- Whether one loop iteration on `b` completes without an exception. -/
def parsesOk (b : Block) : Bool :=
  (parseBlock b).toOption.isSome

/-- The function `Char.toLower` maps the uppercase basic-latin range into the
lowercase range and fixes everything else, so it never turns a non-space
character into a space. -/
theorem toLower_ne_space {c : Char} (hc : c ≠ ' ') : c.toLower ≠ ' ' := by
  have key : ∀ m, m < 123 → 97 ≤ m → Char.ofNat m ≠ ' ' := by decide
  by_cases h : c.toNat ≥ 65 ∧ c.toNat ≤ 90
  · have hl : c.toLower = Char.ofNat (c.toNat + 32) := by
      unfold Char.toLower; simp [h]
    rw [hl]; exact key _ (by omega) (by omega)
  · have hl : c.toLower = c := by
      unfold Char.toLower; simp [h]
    rw [hl]; exact hc

/-- Substituting a hyphen for a space commutes with `Char.toLower`. -/
theorem toLower_if_space (c : Char) :
    (if c = ' ' then '-' else c).toLower
      = (if c.toLower = ' ' then '-' else c.toLower) := by
  by_cases hc : c = ' '
  · subst hc; decide
  · rw [if_neg hc, if_neg (toLower_ne_space hc)]

/-- The code slugs by replacing spaces first and lower-casing second;
the spec words it the other way around.  Both orders agree. -/
theorem pyLower_pyReplaceSpaceDash (s : String) :
    pyLower (pyReplaceSpaceDash s) = pyReplaceSpaceDash (pyLower s) := by
  obtain ⟨l⟩ := s
  simp only [pyReplaceSpaceDash, pyLower, List.map_map]
  congr 1
  induction l with
  | nil => rfl
  | cons c cs ih =>
    simp only [List.map_cons, Function.comp_apply, List.cons.injEq]
    exact ⟨toLower_if_space c, ih⟩

/-- C5: the Fetcher's search URL consists of a `keywords-` segment built
from the first skill (fallback `"internship"`) lower-cased with spaces
replaced by hyphens, followed by a `location-` segment built the same way
exactly when the location is present, non-empty, and not `"any"` ignoring
case; skills `["Python", "flask"]` with location `"Bangalore"` produce
`keywords-python` then `location-bangalore`. -/
theorem c5_url_construction (skills : List String) (location : Option String) :
    fetchUrl skills location = specUrl skills location
    ∧ fetchUrl ["Python", "flask"] (some "Bangalore")
        = "https://internshala.com/internships/keywords-python/location-bangalore" := by
  refine ⟨?_, by decide⟩
  cases skills with
  | nil =>
    cases location with
    | none =>
      simp [fetchUrl, specUrl, pyLower_pyReplaceSpaceDash, specSlug]
    | some loc =>
      by_cases hcond : loc ≠ "" ∧ pyLower loc ≠ "any"
      · simp [fetchUrl, specUrl, hcond, pyLower_pyReplaceSpaceDash, specSlug,
          String.append_assoc]
      · simp [fetchUrl, specUrl, hcond, pyLower_pyReplaceSpaceDash, specSlug]
  | cons s ss =>
    cases location with
    | none =>
      simp [fetchUrl, specUrl, pyLower_pyReplaceSpaceDash, specSlug]
    | some loc =>
      by_cases hcond : loc ≠ "" ∧ pyLower loc ≠ "any"
      · simp [fetchUrl, specUrl, hcond, pyLower_pyReplaceSpaceDash, specSlug,
          String.append_assoc]
      · simp [fetchUrl, specUrl, hcond, pyLower_pyReplaceSpaceDash, specSlug]

/-- The loop's membership test is the non-emptiness of the intersection
of the normalised user skills with the normalised required skills. -/
theorem rowMatches_eq_inter (skills : List String) (r : Row) :
    rowMatches skills r = !((userTokens skills).inter (reqTokens r)).isEmpty := by
  rw [Bool.eq_iff_iff, Bool.not_eq_true', List.isEmpty_eq_false, Ne]
  simp only [List.inter, List.filter_eq_nil_iff]
  push_neg
  simp only [rowMatches, List.any_eq_true, List.contains, List.elem_iff]

/-- C1 (amended): the Skill Matcher returns exactly the first 10 dataset
rows, in dataset order, whose lower-cased trimmed required-skill tokens
intersect the lower-cased trimmed caller skills; a row passes the match
test iff that intersection is non-empty, but a matching row beyond the
first 10 matches is not returned. -/
theorem c1_matcher_first_ten_matches (skills : List String) (e : Option String)
    (sec : List String) (rows : List Row) :
    get_job_suggestions skills e sec rows
      = ((rows.filter fun r =>
            !((userTokens skills).inter (reqTokens r)).isEmpty).map toSuggestion).take 10
    ∧ ∀ r : Row, rowMatches skills r = true
        ↔ (userTokens skills).inter (reqTokens r) ≠ [] := by
  constructor
  · unfold get_job_suggestions
    rw [List.filter_congr fun r _ => rowMatches_eq_inter skills r]
  · intro r
    rw [rowMatches_eq_inter]
    simp [Bool.not_eq_true', List.isEmpty_eq_false]

/-- The claim's pure "iff" fails on a dataset with eleven matching rows:
the eleventh row has a non-empty skill intersection with the caller's
skills, yet its suggestion is not among the returned ones. -/
theorem c1_counterexample :
    ((userTokens ["python"]).inter
        (reqTokens { job_title := "10", required_skills := "python",
                     company := "c", location := "l" }) ≠ [])
    ∧ toSuggestion { job_title := "10", required_skills := "python",
                     company := "c", location := "l" }
        ∉ get_job_suggestions ["python"] none []
            ((List.range 11).map fun i =>
              { job_title := toString i, required_skills := "python",
                company := "c", location := "l" }) := by decide

/-- C7: the request issued by `fetch_internships` carries no explicit
timeout — `requests.get(url)` is called without the `timeout` keyword, so
the claimed timeout bound is absent from every invocation. -/
theorem c7_request_has_no_timeout (skills : List String) (location : Option String) :
    (fetchRequest skills location).timeout = none := rfl

/-- C8: a POST whose `skills` field is absent makes the handler raise an
uncaught `AttributeError` (`None.split(",")`) instead of treating the
field as empty and rendering; the other fields' absence never reaches a
field access on `None`. -/
theorem c8_missing_skills_field_raises (education location : Option String)
    (sectors : List String) (rows : List Row)
    (net : HttpRequest → Except FetchErr Response) :
    handlePost { education := education, location := location
                 skills := none, sectors := sectors } rows net
      = .error .attributeError := rfl

/-- C9: the Skill Matcher's output does not depend on the education
level or the sector interests — both parameters are accepted and never
read, so any two values leave the result unchanged. -/
theorem c9_matcher_ignores_education_and_sectors (skills : List String)
    (rows : List Row) (e1 e2 : Option String) (s1 s2 : List String) :
    get_job_suggestions skills e1 s1 rows = get_job_suggestions skills e2 s2 rows := rfl

/-- When every block of the list either lacks its `h3` (and is skipped
by the `except AttributeError` clause) or parses cleanly, the loop
completes and returns the clean blocks' entries in page order. -/
theorem processBlocks_ok_of (bs : List Block)
    (h : ∀ b ∈ bs, b.h3Text = none ∨ parsesOk b = true) :
    processBlocks bs = .ok (bs.filterMap fun b => (parseBlock b).toOption) := by
  induction bs with
  | nil => rfl
  | cons b bs ih =>
    have hb := h b (List.mem_cons_self b bs)
    have htail := ih fun x hx => h x (List.mem_cons_of_mem b hx)
    rcases hb with hnone | hok
    · have hpb : parseBlock b = .error .attributeError := by
        unfold parseBlock; rw [hnone]
      simp [processBlocks, hpb, htail, Except.toOption]
    · cases hpe : parseBlock b with
      | error err => simp [parsesOk, hpe, Except.toOption] at hok
      | ok e1 => simp [processBlocks, hpe, htail, Except.toOption]

/-- Whatever the loop returns is a sub-sequence of the per-block entries
of the (at most ten) processed blocks, in page order. -/
theorem processBlocks_sublist (bs : List Block) (es : List Entry)
    (h : processBlocks bs = .ok es) :
    es.Sublist (bs.filterMap fun b => (parseBlock b).toOption) := by
  induction bs generalizing es with
  | nil =>
    simp only [processBlocks] at h
    cases h
    exact List.nil_sublist _
  | cons b bs ih =>
    cases hpe : parseBlock b with
    | ok e1 =>
      simp only [processBlocks, hpe] at h
      cases hq : processBlocks bs with
      | ok es₂ =>
        rw [hq] at h
        injection h with h
        subst h
        simpa [List.filterMap_cons, hpe, Except.toOption] using
          List.Sublist.cons₂ e1 (ih es₂ hq)
      | error err2 => rw [hq] at h; exact Except.noConfusion h
    | error err =>
      simp only [processBlocks, hpe] at h
      by_cases herr : err = BlockErr.attributeError
      · rw [if_pos herr] at h
        have : (parseBlock b).toOption = none := by rw [hpe, herr]; rfl
        simpa [List.filterMap_cons, this] using ih es h
      · rw [if_neg herr] at h; exact Except.noConfusion h

/-- C2 (amended): a block whose first `h3` is missing raises
`AttributeError`, which the per-block handler catches — such blocks are
skipped individually and the remaining blocks of the page are still
processed and returned.  (A block whose first anchor is missing, or
whose anchor lacks an `href`, instead raises `TypeError`/`KeyError`,
which escapes the per-block handler; the top-level handler then makes
the whole fetch return the empty sequence — see the counterexample.) -/
theorem c2_missing_title_blocks_skipped (skills : List String)
    (location : Option String) (net : HttpRequest → Except FetchErr Response)
    (resp : Response) (hnet : net (fetchRequest skills location) = .ok resp)
    (hblocks : ∀ b ∈ resp.blocks.take 10, b.h3Text = none ∨ parsesOk b = true) :
    fetch_internships skills location net
      = (resp.blocks.take 10).filterMap fun b => (parseBlock b).toOption := by
  simp only [fetch_internships, hnet]
  rw [processBlocks_ok_of _ hblocks]

/-- Witness for `c2_missing_title_blocks_skipped`: a page whose first
block lacks its title and whose second block is clean. -/
theorem c2_missing_title_blocks_skipped_witness :
    fetch_internships ["python"] (some "Delhi")
        (fun _ => .ok { status := 200
                        blocks := [ { h3Text := none, companyLinkText := none
                                      firstAnchor := some { href := some "/a0" } },
                                    { h3Text := some "Data Science Intern"
                                      companyLinkText := some "Acme"
                                      firstAnchor := some { href := some "/a1" } } ] })
      = (([ { h3Text := none, companyLinkText := none
              firstAnchor := some { href := some "/a0" } },
            { h3Text := some "Data Science Intern"
              companyLinkText := some "Acme"
              firstAnchor := some { href := some "/a1" } } ] : List Block).take 10).filterMap
          (fun b => (parseBlock b).toOption) :=
  c2_missing_title_blocks_skipped _ _ _ _ rfl (by decide)

/-- The claim as stated fails for a block with a title but no anchor:
the `TypeError` it raises is not an `AttributeError`, so it aborts the
whole fetch and the parseable sibling block is discarded — the result is
empty instead of containing the sibling's entry. -/
theorem c2_counterexample :
    fetch_internships ["python"] none
        (fun _ => .ok { status := 200
                        blocks := [ { h3Text := some "Orphan", companyLinkText := none
                                      firstAnchor := none },
                                    { h3Text := some "Good", companyLinkText := none
                                      firstAnchor := some { href := some "/g" } } ] })
      = []
    ∧ (parseBlock { h3Text := some "Good", companyLinkText := none
                    firstAnchor := some { href := some "/g" } }).toOption
        = some { title := "Good", company := "N/A"
                 link := "https://internshala.com/g" } := by decide

/-- C3: both result sequences have at most 10 elements; the Skill
Matcher's result is a sub-sequence of the dataset rows (as suggestions)
in original dataset order, and the Fetcher's result is a sub-sequence of
the per-block entries of the first ten listing blocks in page order. -/
theorem c3_bounds_and_order (skills : List String) (e : Option String)
    (sec : List String) (rows : List Row) (location : Option String)
    (net : HttpRequest → Except FetchErr Response) :
    (get_job_suggestions skills e sec rows).length ≤ 10
    ∧ (get_job_suggestions skills e sec rows).Sublist (rows.map toSuggestion)
    ∧ (fetch_internships skills location net).length ≤ 10
    ∧ (fetch_internships skills location net).Sublist
        (((pageBlocks skills location net).take 10).filterMap
          fun b => (parseBlock b).toOption) := by
  refine ⟨?_, ?_, ?_, ?_⟩
  · unfold get_job_suggestions
    simp only [List.length_take]
    exact Nat.min_le_left _ _
  · unfold get_job_suggestions
    exact (List.take_sublist _ _).trans ((List.filter_sublist _).map toSuggestion)
  · cases hn : net (fetchRequest skills location) with
    | error err => simp [fetch_internships, hn]
    | ok resp =>
      cases hp : processBlocks (resp.blocks.take 10) with
      | error err2 => simp [fetch_internships, hn, hp]
      | ok es =>
        have h1 : fetch_internships skills location net = es := by
          simp [fetch_internships, hn, hp]
        rw [h1]
        calc es.length
            ≤ ((resp.blocks.take 10).filterMap fun b => (parseBlock b).toOption).length :=
              (processBlocks_sublist _ _ hp).length_le
          _ ≤ (resp.blocks.take 10).length := List.length_filterMap_le _ _
          _ ≤ 10 := by simp only [List.length_take]; exact Nat.min_le_left _ _
  · cases hn : net (fetchRequest skills location) with
    | error err => simp [fetch_internships, hn]
    | ok resp =>
      have h2 : pageBlocks skills location net = resp.blocks := by
        simp [pageBlocks, hn]
      cases hp : processBlocks (resp.blocks.take 10) with
      | error err2 => simp [fetch_internships, hn, hp]
      | ok es =>
        have h1 : fetch_internships skills location net = es := by
          simp [fetch_internships, hn, hp]
        rw [h1, h2]
        exact processBlocks_sublist _ _ hp

/-- C4 (amended): when `requests.get` or the top-level parse raises —
the cases the outer `except Exception` catches — the Fetcher returns the
empty sequence; being a total function, it propagates no exception.  (A
non-2xx response, by contrast, is not detected: the status code is never
inspected and the body is parsed normally — see the counterexample.) -/
theorem c4_failure_yields_empty (skills : List String) (location : Option String)
    (net : HttpRequest → Except FetchErr Response) (err : FetchErr)
    (h : net (fetchRequest skills location) = .error err) :
    fetch_internships skills location net = [] := by
  simp [fetch_internships, h]

/-- Witness for `c4_failure_yields_empty`: a connection-refused style
network failure yields the empty sequence. -/
theorem c4_failure_yields_empty_witness :
    fetch_internships ["python"] (some "Remote")
      (fun _ => .error .networkError) = [] :=
  c4_failure_yields_empty ["python"] (some "Remote")
    (fun _ => .error .networkError) .networkError rfl

/-- The claim as stated fails for the non-2xx case: the code never
inspects `response.status_code`, so a 500 response whose body contains a
well-formed listing block yields a non-empty result, not the empty
sequence the claim requires. -/
theorem c4_counterexample :
    fetch_internships ["python"] none
        (fun _ => .ok { status := 500
                        blocks := [ { h3Text := some "ML Intern"
                                      companyLinkText := some "Acme"
                                      firstAnchor := some { href := some "/ml" } } ] })
      ≠ [] := by decide

/-- An entry produced by a successful loop iteration links to the
block's first anchor's `href` prepended with the site's base URL. -/
theorem parseBlock_link (b : Block) (e : Entry) (h : parseBlock b = .ok e) :
    ∃ rest, e.link = "https://internshala.com" ++ rest := by
  rcases b with ⟨h3, comp, anch⟩
  cases h3 with
  | none => exact Except.noConfusion h
  | some t =>
    cases anch with
    | none => exact Except.noConfusion h
    | some a =>
      rcases a with ⟨href⟩
      cases href with
      | none => exact Except.noConfusion h
      | some hr =>
        refine ⟨hr, ?_⟩
        unfold parseBlock at h
        injection h with h
        rw [← h]

/-- Every entry the loop returns carries the base-URL link shape. -/
theorem processBlocks_mem_link (bs : List Block) (es : List Entry)
    (h : processBlocks bs = .ok es) :
    ∀ e ∈ es, ∃ rest, e.link = "https://internshala.com" ++ rest := by
  induction bs generalizing es with
  | nil =>
    simp only [processBlocks] at h
    cases h
    intro e he
    exact absurd he (List.not_mem_nil e)
  | cons b bs ih =>
    cases hpe : parseBlock b with
    | ok e1 =>
      simp only [processBlocks, hpe] at h
      cases hq : processBlocks bs with
      | ok es₂ =>
        rw [hq] at h
        injection h with h
        subst h
        intro e he
        rcases List.mem_cons.mp he with rfl | hmem
        · exact parseBlock_link b e hpe
        · exact ih es₂ hq e hmem
      | error err2 => rw [hq] at h; exact Except.noConfusion h
    | error err =>
      simp only [processBlocks, hpe] at h
      by_cases herr : err = BlockErr.attributeError
      · rw [if_pos herr] at h
        exact ih es h
      · rw [if_neg herr] at h; exact Except.noConfusion h

/-- C10: every entry returned by the Fetcher has a link that begins with
the base URL `https://internshala.com` — the link is built as the base
URL prepended to the block's first anchor's `href`. -/
theorem c10_links_begin_with_base (skills : List String)
    (location : Option String) (net : HttpRequest → Except FetchErr Response)
    (e : Entry) (h : e ∈ fetch_internships skills location net) :
    ∃ rest, e.link = "https://internshala.com" ++ rest := by
  revert h
  cases hn : net (fetchRequest skills location) with
  | error err =>
    intro h
    simp [fetch_internships, hn] at h
  | ok resp =>
    cases hp : processBlocks (resp.blocks.take 10) with
    | error err2 =>
      intro h
      simp [fetch_internships, hn, hp] at h
    | ok es =>
      intro h
      have h' : e ∈ es := by simpa [fetch_internships, hn, hp] using h
      exact processBlocks_mem_link _ _ hp e h'

/-- Witness for `c10_links_begin_with_base`: a concrete fetched entry. -/
theorem c10_links_begin_with_base_witness :
    ∃ rest, ({ title := "QA Intern", company := "N/A"
               link := "https://internshala.com/qa1" } : Entry).link
      = "https://internshala.com" ++ rest :=
  c10_links_begin_with_base ["java"] none
    (fun _ => .ok { status := 200
                    blocks := [ { h3Text := some "QA Intern"
                                  companyLinkText := none
                                  firstAnchor := some { href := some "/qa1" } } ] })
    { title := "QA Intern", company := "N/A"
      link := "https://internshala.com/qa1" }
    (by decide)

/-- C6: a POST whose skills field parses (split on commas, trim, drop
empties) to the empty sequence triggers no outbound network call, yields
an empty internship result set, and still invokes the Skill Matcher with
the empty skills sequence. -/
theorem c6_empty_skills_skip_fetch (form : Form) (rows : List Row)
    (net : HttpRequest → Except FetchErr Response) (si : String)
    (hf : form.skills = some si) (hempty : parseSkills si = []) :
    handlePost form rows net
      = .ok { internships := []
              job_suggestions := get_job_suggestions [] form.education form.sectors rows
              fetchAttempted := false } := by
  simp [handlePost, hf, hempty]

/-- Witness for `c6_empty_skills_skip_fetch`: a skills field of
separators and blanks parses to the empty sequence. -/
theorem c6_empty_skills_skip_fetch_witness :
    handlePost { education := some "PhD", location := some "Delhi"
                 skills := some " , ,", sectors := ["Technology"] } []
        (fun _ => .error .networkError)
      = .ok { internships := []
              job_suggestions := get_job_suggestions [] (some "PhD") ["Technology"] []
              fetchAttempted := false } :=
  c6_empty_skills_skip_fetch _ _ _ " , ," rfl (by decide)
